import Mathlib

/-!
Verification of the `internal-utils` observability facade
(availproject/engineering-toolkit).

The development shallowly embeds the two Rust source files
`src/rust/crates/internal-utils/src/{lib.rs, metrics.rs}` (the primary
copy) and, where it diverges, `src/tools/rust/crates/internal-utils/src/lib.rs`
(the near-duplicate "tools" copy).  Pure value manipulation (the metric
descriptor, the builder setters) becomes plain Lean functions; the
effectful pipeline assembly `TracingBuilder::try_init` becomes a function
over an explicit `World` of external outcomes that returns a result
together with an ordered trace of the side effects it performed.
-/

namespace InternalUtils

/-! ## metrics.rs — data model -/

/-- An OTel attribute value: the code uses string values and one
`i64` value (`status_code as i64`). -/
inductive AttrValue
  | str (s : String)
  | i64 (i : Int)
  deriving Repr, DecidableEq

/-- Rust `opentelemetry::KeyValue`. -/
structure KeyValue where
  key : String
  value : AttrValue
  deriving Repr, DecidableEq

/-- Rust `KeyValue::new` with a string value. -/
def KeyValue.newStr (k v : String) : KeyValue := ⟨k, .str v⟩

/-- Rust `KeyValue::new` with an i64 value. -/
def KeyValue.newI64 (k : String) (v : Int) : KeyValue := ⟨k, .i64 v⟩

/-- Rust `HttpRequestMetrics` (metrics.rs lines 55–63).  `status_code: u16`
is modelled as a `Nat` (the code never exceeds u16 range; the cast to
`i64` in `into_attributes` is made explicit below). -/
structure HttpRequestMetrics where
  method : String
  route : String
  status_code : Nat
  error : Option String
  extra : List (String × String)
  duration_ms : Option Nat
  deriving Repr, DecidableEq

namespace HttpRequestMetrics

/-- Rust `HttpRequestMetrics::new` (metrics.rs lines 66–75). -/
def new : HttpRequestMetrics :=
  { method := "GET"
    route := ""
    status_code := 200
    error := none
    extra := []
    duration_ms := none }

/-- Rust `fn get` (metrics.rs lines 77–80). -/
def get (m : HttpRequestMetrics) : HttpRequestMetrics :=
  { m with method := "GET" }

/-- Rust `fn post` (metrics.rs lines 82–85). -/
def post (m : HttpRequestMetrics) : HttpRequestMetrics :=
  { m with method := "POST" }

/-- Rust `fn put` (metrics.rs lines 87–90). -/
def put (m : HttpRequestMetrics) : HttpRequestMetrics :=
  { m with method := "PUT" }

/-- Rust `fn delete` (metrics.rs lines 92–95). -/
def delete (m : HttpRequestMetrics) : HttpRequestMetrics :=
  { m with method := "DELETE" }

/-- Rust `fn patch` (metrics.rs lines 97–100). -/
def patch (m : HttpRequestMetrics) : HttpRequestMetrics :=
  { m with method := "PATCH" }

/-- Rust `fn ok` (metrics.rs lines 103–106). -/
def ok (m : HttpRequestMetrics) : HttpRequestMetrics :=
  { m with status_code := 200 }

/-- Rust `fn bad_request` (metrics.rs lines 109–112). -/
def bad_request (m : HttpRequestMetrics) : HttpRequestMetrics :=
  { m with status_code := 400 }

/-- Rust `fn conflict` (metrics.rs lines 115–118). -/
def conflict (m : HttpRequestMetrics) : HttpRequestMetrics :=
  { m with status_code := 409 }

/-- Rust `fn internal_server_error` (metrics.rs lines 121–124). -/
def internal_server_error (m : HttpRequestMetrics) : HttpRequestMetrics :=
  { m with status_code := 500 }

/-- Rust `fn route` (metrics.rs lines 126–129). -/
def route_set (m : HttpRequestMetrics) (value : String) : HttpRequestMetrics :=
  { m with route := value }

/-- Rust `fn status_code` (metrics.rs lines 131–134). -/
def status_code_set (m : HttpRequestMetrics) (value : Nat) : HttpRequestMetrics :=
  { m with status_code := value }

/-- Rust `fn error` (metrics.rs lines 136–139). -/
def error_set (m : HttpRequestMetrics) (value : String) : HttpRequestMetrics :=
  { m with error := some value }

/-- Rust `fn extra` (metrics.rs lines 141–144): pushes one pair onto `extra`. -/
def extra_push (m : HttpRequestMetrics) (k v : String) : HttpRequestMetrics :=
  { m with extra := m.extra ++ [(k, v)] }

/-- Rust `fn duration` (metrics.rs lines 147–150). -/
def duration (m : HttpRequestMetrics) (value : Nat) : HttpRequestMetrics :=
  { m with duration_ms := some value }

/-- Rust `impl IntoOtelAttributes for HttpRequestMetrics` (metrics.rs lines
154–175): three fixed attributes, then `error.type` when `error` is set,
then every `extra` pair in order. -/
def into_attributes (m : HttpRequestMetrics) : List KeyValue :=
  ([KeyValue.newStr "http.request.method" m.method,
    KeyValue.newStr "http.route" m.route,
    KeyValue.newI64 "http.response.status_code" (Int.ofNat m.status_code)]
   ++ (match m.error with
       | some e => [KeyValue.newStr "error.type" e]
       | none => []))
   ++ m.extra.map (fun p => KeyValue.newStr p.1 p.2)

end HttpRequestMetrics

/-! ## metrics.rs — MetricsHelper instrument factories -/

/-- A meter, identified by its name (the code only threads it through). -/
structure Meter where
  name : String
  deriving Repr, DecidableEq

/-- Descriptor of a counter instrument as configured by the factory:
name, description, unit. -/
structure CounterDescr where
  name : String
  description : String
  unit : String
  deriving Repr, DecidableEq

/-- Descriptor of a histogram instrument as configured by the factory:
name, description, unit, and explicit bucket boundaries.  The Rust
boundaries are `f64` literals that are all small whole numbers, so they
are modelled exactly as rationals. -/
structure HistogramDescr where
  name : String
  description : String
  unit : String
  boundaries : List ℚ
  deriving Repr, DecidableEq

namespace MetricsHelper

/-- Rust `MetricsHelper::http_request_counter` (metrics.rs lines 11–17). -/
def http_request_counter (_m : Meter) : CounterDescr :=
  { name := "http.server.request.total"
    description := "Total number of HTTP requests"
    unit := "1" }

/-- Rust `MetricsHelper::http_request_duration` (metrics.rs lines 19–28). -/
def http_request_duration (_m : Meter) : HistogramDescr :=
  { name := "http.server.request.duration"
    description := "HTTP request duration"
    unit := "ms"
    boundaries := [5, 10, 25, 50, 100, 250, 500, 1000, 2500, 5000, 10000] }

/-- Rust `MetricsHelper::db_operation_counter` (metrics.rs lines 30–36). -/
def db_operation_counter (_m : Meter) : CounterDescr :=
  { name := "db.client.operation.total"
    description := "Total number of database operations"
    unit := "1" }

/-- Rust `MetricsHelper::db_operation_duration` (metrics.rs lines 38–47). -/
def db_operation_duration (_m : Meter) : HistogramDescr :=
  { name := "db.client.operation.duration"
    description := "Database operation duration"
    unit := "ms"
    boundaries := [5, 10, 25, 50, 100, 250, 500, 1000, 2500, 5000, 10000] }

end MetricsHelper

/-! ## lib.rs — configuration, guard, and the pipeline builder

`TracingBuilder::try_init` interacts with the outside world (filesystem,
OTLP exporter construction, the process-global subscriber slot).  Those
interactions are modelled by an explicit `World` of outcomes, and
`try_init` returns, besides its `Result`, the updated world and the
ordered trace of side effects it performed. -/

/-- The OTel resource built in `try_init` (lib.rs lines 216–224):
`service.name` and `service.version` attributes. -/
structure Resource where
  service_name : String
  service_version : String
  deriving Repr, DecidableEq

/-- A constructed SDK provider, as held by `TracingGuards`: it was built
from one OTLP exporter (identified by its endpoint) and the shared
resource. -/
structure ProviderHandle where
  endpoint : String
  resource : Resource
  deriving Repr, DecidableEq

/-- Rust `TracingOtelParams` (lib.rs lines 84–91). -/
structure TracingOtelParams where
  endpoint_traces : Option String
  endpoint_metrics : Option String
  endpoint_logs : Option String
  service_name : String
  service_version : String
  deriving Repr, DecidableEq

/-- Rust `TracingGuards` (lib.rs lines 51–59): up to three provider handles. -/
structure TracingGuards where
  otel_tracer : Option ProviderHandle
  otel_meter : Option ProviderHandle
  otel_logger : Option ProviderHandle
  deriving Repr, DecidableEq

/-- Rust `TracingGuards::default()`: all three handles empty. -/
def TracingGuards.empty : TracingGuards := ⟨none, none, none⟩

/-- The three provider kinds held by the guard. -/
inductive ProviderKind
  | tracer
  | meter
  | logger
  deriving Repr, DecidableEq

/-- One call made by `Drop for TracingGuards` (lib.rs lines 61–81).
Both calls discard their `Result` (`_ = ...` in the source), so the
action carries no outcome. -/
inductive DropAction
  | force_flush (k : ProviderKind)
  | shutdown_with_timeout (k : ProviderKind) (ms : Nat)
  deriving Repr, DecidableEq

/-- Rust `Drop for TracingGuards` (lib.rs lines 61–81; identical in the tools
copy, lines 50–70): for the tracer, then the meter, then the logger, if
the handle is present, `force_flush` then `shutdown_with_timeout(100ms)`,
every result discarded.  The function is total: the destructor performs
these calls and nothing else. -/
def TracingGuards.dropActions (g : TracingGuards) : List DropAction :=
  (match g.otel_tracer with
   | some _ => [.force_flush .tracer, .shutdown_with_timeout .tracer 100]
   | none => []) ++
  (match g.otel_meter with
   | some _ => [.force_flush .meter, .shutdown_with_timeout .meter 100]
   | none => []) ++
  (match g.otel_logger with
   | some _ => [.force_flush .logger, .shutdown_with_timeout .logger 100]
   | none => [])

/-- Formatting mode of a fmt layer. -/
inductive FmtKind
  | json
  | text
  deriving Repr, DecidableEq

/-- One subscriber layer pushed onto the `layers` vec in `try_init`. -/
inductive LayerDesc
  | fmtFile (path : String) (fmt : FmtKind)
  | fmtStdout (fmt : FmtKind)
  | otelTraceBridge (tracer_name : String)
  | otelLogBridge (resource : Resource)
  deriving Repr, DecidableEq

/-- Which bridge layers count as OTel bridge subscriber layers. -/
def LayerDesc.isOtelBridge : LayerDesc → Bool
  | .otelTraceBridge _ => true
  | .otelLogBridge _ => true
  | _ => false

/-- The three OTLP exporter kinds. -/
inductive ExporterKind
  | traces
  | metrics
  | logs
  deriving Repr, DecidableEq

/-- The causes on which `try_init` can fail.  In the source the error is
a boxed dynamic error produced at exactly three kinds of sites:
`File::create` (lib.rs line 192), the three `ExporterBuilder::build`
calls (lines 230, 247, 261), and the final subscriber
`try_init` (line 282); the dynamic type of the boxed error identifies
the site. -/
inductive InitError
  | FileSink (path : String)
  | ExporterBuild (k : ExporterKind) (endpoint : String)
  | AlreadyInstalled
  deriving Repr, DecidableEq

/-- An observable side effect of `try_init`, in program order.
`setGlobalLoggerProvider` is part of the vocabulary so that claims about
a global logger install can be stated; no call site in the source emits
it. -/
inductive Effect
  | createFile (path : String)
  | buildExporter (k : ExporterKind) (endpoint : String)
  | setTextMapPropagatorW3C
  | setGlobalTracerProvider (endpoint : String)
  | setGlobalMeterProvider (endpoint : String)
  | setGlobalLoggerProvider (endpoint : String)
  | installSubscriber (filter : String) (layers : List LayerDesc)
  deriving Repr, DecidableEq

/-- Outcomes of the external operations `try_init` depends on:
whether `File::create` succeeds for a path, whether each OTLP exporter
builder succeeds for an endpoint, the `RUST_LOG` value read by
`EnvFilter::from_default_env`, and whether a process-global subscriber
is already installed. -/
structure World where
  file_create_ok : String → Bool
  span_exporter_ok : String → Bool
  metric_exporter_ok : String → Bool
  log_exporter_ok : String → Bool
  rust_log : String
  subscriber_installed : Bool

/-- Rust `TracingBuilder` (lib.rs lines 106–113).  `EnvFilter` is modelled by
its filter expression string. -/
structure TracingBuilder where
  json : Option Bool
  stdout : Option Bool
  file : Option String
  env_filter : Option String
  otel : Option TracingOtelParams

namespace TracingBuilder

/-- Rust `Default for TracingBuilder` (lib.rs lines 115–126): json and stdout
both `Some(true)`, everything else empty. -/
def new : TracingBuilder :=
  { json := some true
    stdout := some true
    file := none
    env_filter := none
    otel := none }

/-- Rust `with_stdout` (lib.rs lines 133–136): writes the `stdout` field. -/
def with_stdout (b : TracingBuilder) (value : Bool) : TracingBuilder :=
  { b with stdout := some value }

/-- Rust `with_env_filter` (lib.rs lines 138–141). -/
def with_env_filter (b : TracingBuilder) (value : Option String) : TracingBuilder :=
  { b with env_filter := value }

/-- Rust `with_json` (lib.rs lines 143–146). -/
def with_json (b : TracingBuilder) (value : Option Bool) : TracingBuilder :=
  { b with json := value }

/-- Rust `with_file` (lib.rs lines 148–151). -/
def with_file (b : TracingBuilder) (path : Option String) : TracingBuilder :=
  { b with file := path }

/-- Rust `with_otel` (lib.rs lines 153–157). -/
def with_otel (b : TracingBuilder) (otel : TracingOtelParams) : TracingBuilder :=
  { b with otel := some otel }

/-- Rust `with_predefined_file` (lib.rs lines 159–162). -/
def with_predefined_file (b : TracingBuilder) : TracingBuilder :=
  { b with file := some "./log.txt" }

/-- Intermediate state of `try_init`: the `layers` vec, the guard under
construction, and the effects performed so far. -/
structure Acc where
  layers : List LayerDesc
  guard : TracingGuards
  effects : List Effect
  deriving Repr, DecidableEq

/-- The empty starting state of `try_init` (lib.rs lines 188–189). -/
def Acc.start : Acc := ⟨[], TracingGuards.empty, []⟩

/-- File-sink step (lib.rs lines 191–199): if a path is configured,
create/truncate the file (fail with the I/O cause on error) and push a
fmt layer with ANSI disabled, JSON or text per `json`. -/
def fileStep (json : Bool) (file : Option String) (w : World) (a : Acc) :
    Acc × Option InitError :=
  match file with
  | none => (a, none)
  | some path =>
    if w.file_create_ok path then
      ({ a with
         effects := a.effects ++ [.createFile path]
         layers := a.layers ++ [.fmtFile path (if json then .json else .text)] },
       none)
    else
      (a, some (.FileSink path))

/-- Stdout step (lib.rs lines 201–208): if stdout is enabled, push a fmt
layer, JSON or text per `json`. -/
def stdoutStep (json stdout : Bool) (a : Acc) : Acc :=
  if stdout then
    { a with layers := a.layers ++ [.fmtStdout (if json then .json else .text)] }
  else a

/-- Traces branch (lib.rs lines 226–240): build a span exporter for the
endpoint, build a tracer provider over it and the resource, install it
as the global tracer provider, push the tracing-opentelemetry bridge
layer for the tracer named by the service name, and keep the provider in
the guard. -/
def tracesStep (p : TracingOtelParams) (res : Resource) (w : World) (a : Acc) :
    Acc × Option InitError :=
  match p.endpoint_traces with
  | none => (a, none)
  | some endpoint =>
    if w.span_exporter_ok endpoint then
      ({ a with
         effects := a.effects ++
           [.buildExporter .traces endpoint, .setGlobalTracerProvider endpoint]
         layers := a.layers ++ [.otelTraceBridge p.service_name]
         guard := { a.guard with otel_tracer := some ⟨endpoint, res⟩ } },
       none)
    else
      (a, some (.ExporterBuild .traces endpoint))

/-- Metrics branch (lib.rs lines 242–254): build a metric exporter,
build a meter provider, install it as the global meter provider, keep
the provider in the guard.  No layer is pushed. -/
def metricsStep (p : TracingOtelParams) (res : Resource) (w : World) (a : Acc) :
    Acc × Option InitError :=
  match p.endpoint_metrics with
  | none => (a, none)
  | some endpoint =>
    if w.metric_exporter_ok endpoint then
      ({ a with
         effects := a.effects ++
           [.buildExporter .metrics endpoint, .setGlobalMeterProvider endpoint]
         guard := { a.guard with otel_meter := some ⟨endpoint, res⟩ } },
       none)
    else
      (a, some (.ExporterBuild .metrics endpoint))

/-- Logs branch (lib.rs lines 256–273): build a log exporter, build a
logger provider, push the appender-tracing bridge layer over it, keep
the provider in the guard.  The source installs no global for the
logger provider. -/
def logsStep (p : TracingOtelParams) (res : Resource) (w : World) (a : Acc) :
    Acc × Option InitError :=
  match p.endpoint_logs with
  | none => (a, none)
  | some endpoint =>
    if w.log_exporter_ok endpoint then
      ({ a with
         effects := a.effects ++ [.buildExporter .logs endpoint]
         layers := a.layers ++ [.otelLogBridge res]
         guard := { a.guard with otel_logger := some ⟨endpoint, res⟩ } },
       none)
    else
      (a, some (.ExporterBuild .logs endpoint))

/-- OTel branch (lib.rs lines 210–274): when OTel params are present,
install the W3C trace-context propagator globally, build the shared
resource, then run the traces, metrics and logs branches in that order,
stopping at the first failure. -/
def otelStep (otel : Option TracingOtelParams) (w : World) (a : Acc) :
    Acc × Option InitError :=
  match otel with
  | none => (a, none)
  | some p =>
    let res : Resource := ⟨p.service_name, p.service_version⟩
    let a := { a with effects := a.effects ++ [Effect.setTextMapPropagatorW3C] }
    match tracesStep p res w a with
    | (a, some e) => (a, some e)
    | (a, none) =>
      match metricsStep p res w a with
      | (a, some e) => (a, some e)
      | (a, none) => logsStep p res w a

/-- Result of `try_init`: the `Result` value, the world after the call
(only the process-global subscriber slot can change), the effect trace,
and the final `layers` vec. -/
structure TryInitResult where
  result : Except InitError TracingGuards
  world : World
  effects : List Effect
  layers : List LayerDesc

/-- Rust `TracingBuilder::try_init` (lib.rs lines 181–285).  Resolve `json`
and `stdout` (both defaulting to true), run the file, stdout and OTel
steps in order, then compose the registry with the env filter (the
configured one, else from `RUST_LOG`) and the layers and install it as
the process-global subscriber, failing if one is already installed. -/
def try_init (b : TracingBuilder) (w : World) : TryInitResult :=
  let json := b.json.getD true
  let stdout := b.stdout.getD true
  match fileStep json b.file w Acc.start with
  | (a, some e) => ⟨.error e, w, a.effects, a.layers⟩
  | (a, none) =>
    let a := stdoutStep json stdout a
    match otelStep b.otel w a with
    | (a, some e) => ⟨.error e, w, a.effects, a.layers⟩
    | (a, none) =>
      let filter := b.env_filter.getD w.rust_log
      if w.subscriber_installed then
        ⟨.error .AlreadyInstalled, w, a.effects, a.layers⟩
      else
        ⟨.ok a.guard, { w with subscriber_installed := true },
         a.effects ++ [.installSubscriber filter a.layers], a.layers⟩

end TracingBuilder

/-! ## The tools copy (src/tools/rust/crates/internal-utils/src/lib.rs)

A near-duplicate of the builder whose setters diverge; only the parts a
claim refers to are embedded. -/

namespace tools

/-- Rust `TracingBuilder` in the tools copy (tools lib.rs lines 81–88):
`#[derive(Default)]`, so every field starts as `None`. -/
structure TracingBuilder where
  json : Option Bool
  stdout : Option Bool
  file : Option String
  otel : Option TracingOtelParams

/-- Rust `TracingBuilder::new` in the tools copy (tools lib.rs lines 90–93):
the derived default, all fields `None`. -/
def TracingBuilder.new : TracingBuilder :=
  { json := none, stdout := none, file := none, otel := none }

/-- Rust `with_stdout` in the tools copy (tools lib.rs lines 102–105): the
body is `self.json = Some(value); self` — it writes the `json` field,
not the `stdout` field. -/
def TracingBuilder.with_stdout (b : TracingBuilder) (value : Bool) : TracingBuilder :=
  { b with json := some value }

/-- Rust `with_json` in the tools copy (tools lib.rs lines 107–110). -/
def TracingBuilder.with_json (b : TracingBuilder) (value : Bool) : TracingBuilder :=
  { b with json := some value }

end tools

/-! ## Derived vocabulary used to state the claims -/

/-- The endpoint field of the OTel params for each exporter kind. -/
def TracingOtelParams.endpointOf (p : TracingOtelParams) : ExporterKind → Option String
  | .traces => p.endpoint_traces
  | .metrics => p.endpoint_metrics
  | .logs => p.endpoint_logs

/-- The resource built from the OTel params (lib.rs lines 216–224). -/
def TracingOtelParams.resource (p : TracingOtelParams) : Resource :=
  ⟨p.service_name, p.service_version⟩

/-- Whether an effect is the construction of an OTLP exporter of kind `k`. -/
def Effect.isBuildOf (k : ExporterKind) : Effect → Bool
  | .buildExporter k2 _ => k2 == k
  | _ => false

/-- Whether an effect is the construction of any OTLP exporter. -/
def Effect.isBuild : Effect → Bool
  | .buildExporter _ _ => true
  | _ => false

/-- Whether an effect installs a process-wide global provider of kind `k`. -/
def Effect.isGlobalProviderInstallOf (k : ProviderKind) : Effect → Bool
  | .setGlobalTracerProvider _ => k == ProviderKind.tracer
  | .setGlobalMeterProvider _ => k == ProviderKind.meter
  | .setGlobalLoggerProvider _ => k == ProviderKind.logger
  | _ => false

/-- Whether a layer is the appender-tracing log bridge. -/
def LayerDesc.isLogBridge : LayerDesc → Bool
  | .otelLogBridge _ => true
  | _ => false

/-- The configuration requests an exporter of kind `k` at endpoint `e`. -/
def TracingBuilder.exporterRequested (b : TracingBuilder) (k : ExporterKind) (e : String) : Prop :=
  ∃ p, b.otel = some p ∧ p.endpointOf k = some e

/-- Outcome of building an exporter of kind `k` at endpoint `e`. -/
def World.exporterOracle (w : World) : ExporterKind → String → Bool
  | .traces, e => w.span_exporter_ok e
  | .metrics, e => w.metric_exporter_ok e
  | .logs, e => w.log_exporter_ok e

namespace TracingBuilder

/-- Effects contributed by the file-sink step. -/
def fileFx : Option String → List Effect
  | some p => [.createFile p]
  | none => []

/-- Layers contributed by the file-sink step. -/
def fileLy (json : Bool) : Option String → List LayerDesc
  | some p => [.fmtFile p (if json then .json else .text)]
  | none => []

/-- Layers contributed by the stdout step. -/
def stdoutLy (json stdout : Bool) : List LayerDesc :=
  if stdout then [.fmtStdout (if json then .json else .text)] else []

/-- Effects contributed by the traces branch. -/
def trFx (p : TracingOtelParams) : List Effect :=
  match p.endpoint_traces with
  | some e => [.buildExporter .traces e, .setGlobalTracerProvider e]
  | none => []

/-- Layers contributed by the traces branch. -/
def trLy (p : TracingOtelParams) : List LayerDesc :=
  match p.endpoint_traces with
  | some _ => [.otelTraceBridge p.service_name]
  | none => []

/-- Effects contributed by the metrics branch. -/
def meFx (p : TracingOtelParams) : List Effect :=
  match p.endpoint_metrics with
  | some e => [.buildExporter .metrics e, .setGlobalMeterProvider e]
  | none => []

/-- Effects contributed by the logs branch. -/
def loFx (p : TracingOtelParams) : List Effect :=
  match p.endpoint_logs with
  | some e => [.buildExporter .logs e]
  | none => []

/-- Layers contributed by the logs branch, bridging over a provider
built from resource `r`. -/
def loLy (r : Resource) (p : TracingOtelParams) : List LayerDesc :=
  match p.endpoint_logs with
  | some _ => [.otelLogBridge r]
  | none => []

/-- Effects contributed by the whole OTel branch. -/
def otelFx (p : TracingOtelParams) : List Effect :=
  Effect.setTextMapPropagatorW3C :: (trFx p ++ meFx p ++ loFx p)

/-- Layers contributed by the whole OTel branch. -/
def otelLy (p : TracingOtelParams) : List LayerDesc :=
  trLy p ++ loLy p.resource p

/-- The guard produced by a fully successful OTel branch. -/
def otelGuard (p : TracingOtelParams) : TracingGuards :=
  ⟨p.endpoint_traces.map fun e => ⟨e, p.resource⟩,
   p.endpoint_metrics.map fun e => ⟨e, p.resource⟩,
   p.endpoint_logs.map fun e => ⟨e, p.resource⟩⟩

/-- The guard produced by a successful `try_init`. -/
def finalGuard : Option TracingOtelParams → TracingGuards
  | some p => otelGuard p
  | none => TracingGuards.empty

end TracingBuilder

/-- The per-provider release sequence described by the spec for the
guard destructor: when the handle is present, `force_flush` then
`shutdown` bounded at 100 ms; nothing when it is absent. -/
def releaseSeq (k : ProviderKind) : Option ProviderHandle → List DropAction
  | some _ => [.force_flush k, .shutdown_with_timeout k 100]
  | none => []

/-! ## Concrete worlds and configurations used by closed instances -/

/-- A world where every external operation succeeds and no process-wide
subscriber is installed yet. -/
def okWorld : World :=
  ⟨fun _ => true, fun _ => true, fun _ => true, fun _ => true, "info", false⟩

/-- A world where file creation fails, everything else succeeds, and no
subscriber is installed yet (e.g. the path names a missing directory). -/
def badFileWorld : World :=
  ⟨fun _ => false, fun _ => true, fun _ => true, fun _ => true, "info", false⟩

/-- OTel params with all three endpoints set. -/
def fullParams : TracingOtelParams :=
  ⟨some "http://localhost:4318/v1/traces", some "http://localhost:4318/v1/metrics",
   some "http://localhost:4318/v1/logs", "svc", "1.0"⟩

/-- OTel params with all three endpoints null. -/
def noEndpointParams : TracingOtelParams := ⟨none, none, none, "svc", "1.0"⟩

/-- Default builder with the full OTel params. -/
def fullOtelBuilder : TracingBuilder :=
  { TracingBuilder.new with otel := some fullParams }

/-- Default builder with the empty-endpoints OTel params. -/
def noEndpointBuilder : TracingBuilder :=
  { TracingBuilder.new with otel := some noEndpointParams }

/-- Default builder with a file path that cannot be created. -/
def badFileBuilder : TracingBuilder :=
  { TracingBuilder.new with file := some "/nonexistent/dir/f.log" }

/-- Builder with an uncreatable file path and the empty-endpoints OTel
params. -/
def badFileNoEndpointBuilder : TracingBuilder :=
  { TracingBuilder.new with
      file := some "/nonexistent/dir/f.log"
      otel := some noEndpointParams }

end InternalUtils

/-! # Lemmas about the pipeline steps -/

namespace InternalUtils

namespace TracingBuilder

theorem fileStep_none_inv {j : Bool} {f : Option String} {w : World} {a a' : Acc}
    (h : fileStep j f w a = (a', none)) :
    (∀ p, f = some p → w.file_create_ok p = true) ∧
    a'.effects = a.effects ++ fileFx f ∧
    a'.layers = a.layers ++ fileLy j f ∧
    a'.guard = a.guard := by
  cases f with
  | none =>
    simp only [fileStep, Prod.mk.injEq] at h
    obtain ⟨rfl, -⟩ := h
    simp [fileFx, fileLy]
  | some p =>
    cases hc : w.file_create_ok p with
    | true =>
      simp only [fileStep, hc, if_true, Prod.mk.injEq] at h
      obtain ⟨rfl, -⟩ := h
      refine ⟨?_, by simp [fileFx], by simp [fileLy], rfl⟩
      intro q hq
      cases hq
      exact hc
    | false =>
      simp [fileStep, hc] at h

theorem fileStep_some_inv {j : Bool} {f : Option String} {w : World} {a a' : Acc}
    {e : InitError} (h : fileStep j f w a = (a', some e)) :
    ∃ p, f = some p ∧ w.file_create_ok p = false ∧ e = InitError.FileSink p ∧ a' = a := by
  cases f with
  | none => simp [fileStep] at h
  | some p =>
    cases hc : w.file_create_ok p with
    | true => simp [fileStep, hc] at h
    | false =>
      simp only [fileStep, hc, Bool.false_eq_true, if_false, Prod.mk.injEq,
        Option.some.injEq] at h
      exact ⟨p, rfl, hc, h.2.symm, h.1.symm⟩

theorem stdoutStep_eq (j s : Bool) (a : Acc) :
    stdoutStep j s a = { a with layers := a.layers ++ stdoutLy j s } := by
  cases s <;> simp [stdoutStep, stdoutLy]

theorem tracesStep_none_inv {p : TracingOtelParams} {r : Resource} {w : World} {a a' : Acc}
    (h : tracesStep p r w a = (a', none)) :
    (∀ e, p.endpoint_traces = some e → w.span_exporter_ok e = true) ∧
    a'.effects = a.effects ++ trFx p ∧
    a'.layers = a.layers ++ trLy p ∧
    a'.guard.otel_tracer = (match p.endpoint_traces with
      | some e => some ⟨e, r⟩
      | none => a.guard.otel_tracer) ∧
    a'.guard.otel_meter = a.guard.otel_meter ∧
    a'.guard.otel_logger = a.guard.otel_logger := by
  cases het : p.endpoint_traces with
  | none =>
    simp only [tracesStep, het, Prod.mk.injEq] at h
    obtain ⟨rfl, -⟩ := h
    simp [trFx, trLy, het]
  | some ep =>
    cases hc : w.span_exporter_ok ep with
    | true =>
      simp only [tracesStep, het, hc, if_true, Prod.mk.injEq] at h
      obtain ⟨rfl, -⟩ := h
      refine ⟨?_, by simp [trFx, het], by simp [trLy, het], by simp [het], rfl, rfl⟩
      intro q hq
      cases hq
      exact hc
    | false =>
      simp [tracesStep, het, hc] at h

theorem tracesStep_some_inv {p : TracingOtelParams} {r : Resource} {w : World} {a a' : Acc}
    {e : InitError} (h : tracesStep p r w a = (a', some e)) :
    ∃ ep, p.endpoint_traces = some ep ∧ w.span_exporter_ok ep = false ∧
      e = InitError.ExporterBuild ExporterKind.traces ep := by
  cases het : p.endpoint_traces with
  | none => simp [tracesStep, het] at h
  | some ep =>
    cases hc : w.span_exporter_ok ep with
    | true => simp [tracesStep, het, hc] at h
    | false =>
      simp only [tracesStep, het, hc, Bool.false_eq_true, if_false, Prod.mk.injEq,
        Option.some.injEq] at h
      exact ⟨ep, rfl, hc, h.2.symm⟩

theorem metricsStep_none_inv {p : TracingOtelParams} {r : Resource} {w : World} {a a' : Acc}
    (h : metricsStep p r w a = (a', none)) :
    (∀ e, p.endpoint_metrics = some e → w.metric_exporter_ok e = true) ∧
    a'.effects = a.effects ++ meFx p ∧
    a'.layers = a.layers ∧
    a'.guard.otel_tracer = a.guard.otel_tracer ∧
    a'.guard.otel_meter = (match p.endpoint_metrics with
      | some e => some ⟨e, r⟩
      | none => a.guard.otel_meter) ∧
    a'.guard.otel_logger = a.guard.otel_logger := by
  cases het : p.endpoint_metrics with
  | none =>
    simp only [metricsStep, het, Prod.mk.injEq] at h
    obtain ⟨rfl, -⟩ := h
    simp [meFx, het]
  | some ep =>
    cases hc : w.metric_exporter_ok ep with
    | true =>
      simp only [metricsStep, het, hc, if_true, Prod.mk.injEq] at h
      obtain ⟨rfl, -⟩ := h
      refine ⟨?_, by simp [meFx, het], rfl, rfl, by simp [het], rfl⟩
      intro q hq
      cases hq
      exact hc
    | false =>
      simp [metricsStep, het, hc] at h

theorem metricsStep_some_inv {p : TracingOtelParams} {r : Resource} {w : World} {a a' : Acc}
    {e : InitError} (h : metricsStep p r w a = (a', some e)) :
    ∃ ep, p.endpoint_metrics = some ep ∧ w.metric_exporter_ok ep = false ∧
      e = InitError.ExporterBuild ExporterKind.metrics ep := by
  cases het : p.endpoint_metrics with
  | none => simp [metricsStep, het] at h
  | some ep =>
    cases hc : w.metric_exporter_ok ep with
    | true => simp [metricsStep, het, hc] at h
    | false =>
      simp only [metricsStep, het, hc, Bool.false_eq_true, if_false, Prod.mk.injEq,
        Option.some.injEq] at h
      exact ⟨ep, rfl, hc, h.2.symm⟩

theorem logsStep_none_inv {p : TracingOtelParams} {r : Resource} {w : World} {a a' : Acc}
    (h : logsStep p r w a = (a', none)) :
    (∀ e, p.endpoint_logs = some e → w.log_exporter_ok e = true) ∧
    a'.effects = a.effects ++ loFx p ∧
    a'.layers = a.layers ++ loLy r p ∧
    a'.guard.otel_tracer = a.guard.otel_tracer ∧
    a'.guard.otel_meter = a.guard.otel_meter ∧
    a'.guard.otel_logger = (match p.endpoint_logs with
      | some e => some ⟨e, r⟩
      | none => a.guard.otel_logger) := by
  cases het : p.endpoint_logs with
  | none =>
    simp only [logsStep, het, Prod.mk.injEq] at h
    obtain ⟨rfl, -⟩ := h
    simp [loFx, loLy, het]
  | some ep =>
    cases hc : w.log_exporter_ok ep with
    | true =>
      simp only [logsStep, het, hc, if_true, Prod.mk.injEq] at h
      obtain ⟨rfl, -⟩ := h
      refine ⟨?_, by simp [loFx, het], by simp [loLy, het], rfl, rfl, by simp [het]⟩
      intro q hq
      cases hq
      exact hc
    | false =>
      simp [logsStep, het, hc] at h

theorem logsStep_some_inv {p : TracingOtelParams} {r : Resource} {w : World} {a a' : Acc}
    {e : InitError} (h : logsStep p r w a = (a', some e)) :
    ∃ ep, p.endpoint_logs = some ep ∧ w.log_exporter_ok ep = false ∧
      e = InitError.ExporterBuild ExporterKind.logs ep := by
  cases het : p.endpoint_logs with
  | none => simp [logsStep, het] at h
  | some ep =>
    cases hc : w.log_exporter_ok ep with
    | true => simp [logsStep, het, hc] at h
    | false =>
      simp only [logsStep, het, hc, Bool.false_eq_true, if_false, Prod.mk.injEq,
        Option.some.injEq] at h
      exact ⟨ep, rfl, hc, h.2.symm⟩

theorem otelStep_none_inv {o : Option TracingOtelParams} {w : World} {a a' : Acc}
    (h : otelStep o w a = (a', none)) :
    (o = none ∧ a' = a) ∨
    ∃ p, o = some p ∧
      (∀ k e, p.endpointOf k = some e → w.exporterOracle k e = true) ∧
      a'.effects = a.effects ++ otelFx p ∧
      a'.layers = a.layers ++ otelLy p ∧
      a'.guard.otel_tracer = (match p.endpoint_traces with
        | some e => some ⟨e, p.resource⟩
        | none => a.guard.otel_tracer) ∧
      a'.guard.otel_meter = (match p.endpoint_metrics with
        | some e => some ⟨e, p.resource⟩
        | none => a.guard.otel_meter) ∧
      a'.guard.otel_logger = (match p.endpoint_logs with
        | some e => some ⟨e, p.resource⟩
        | none => a.guard.otel_logger) := by
  cases o with
  | none =>
    left
    refine ⟨rfl, ?_⟩
    simp only [otelStep, Prod.mk.injEq] at h
    exact h.1.symm
  | some p =>
    right
    refine ⟨p, rfl, ?_⟩
    simp only [otelStep] at h
    split at h
    · simp at h
    · rename_i a1 heq1
      split at h
      · simp at h
      · rename_i a2 heq2
        obtain ⟨hko1, hfx1, hly1, hgt1, hgm1, hgl1⟩ := tracesStep_none_inv heq1
        obtain ⟨hko2, hfx2, hly2, hgt2, hgm2, hgl2⟩ := metricsStep_none_inv heq2
        obtain ⟨hko3, hfx3, hly3, hgt3, hgm3, hgl3⟩ := logsStep_none_inv h
        refine ⟨?_, ?_, ?_, ?_, ?_, ?_⟩
        · intro k e
          cases k with
          | traces => exact hko1 e
          | metrics => exact hko2 e
          | logs => exact hko3 e
        · rw [hfx3, hfx2, hfx1]
          simp [otelFx, List.append_assoc]
        · rw [hly3, hly2, hly1]
          simp [otelLy, TracingOtelParams.resource, List.append_assoc]
        · rw [hgt3, hgt2, hgt1]
          cases p.endpoint_traces <;> simp [TracingOtelParams.resource]
        · rw [hgm3, hgm2, hgm1]
          cases p.endpoint_metrics <;> simp [TracingOtelParams.resource]
        · rw [hgl3, hgl2, hgl1]
          cases p.endpoint_logs <;> simp [TracingOtelParams.resource]

theorem otelStep_some_inv {o : Option TracingOtelParams} {w : World} {a a' : Acc}
    {e : InitError} (h : otelStep o w a = (a', some e)) :
    ∃ p, o = some p ∧ ∃ k ep, p.endpointOf k = some ep ∧
      w.exporterOracle k ep = false ∧ e = InitError.ExporterBuild k ep := by
  cases o with
  | none => simp [otelStep] at h
  | some p =>
    refine ⟨p, rfl, ?_⟩
    simp only [otelStep] at h
    split at h
    · rename_i a1 e1 heq1
      obtain ⟨ep, hep, hc, rfl⟩ := tracesStep_some_inv heq1
      simp only [Prod.mk.injEq, Option.some.injEq] at h
      exact ⟨.traces, ep, hep, hc, h.2.symm⟩
    · rename_i a1 heq1
      split at h
      · rename_i a2 e2 heq2
        obtain ⟨ep, hep, hc, rfl⟩ := metricsStep_some_inv heq2
        simp only [Prod.mk.injEq, Option.some.injEq] at h
        exact ⟨.metrics, ep, hep, hc, h.2.symm⟩
      · rename_i a2 heq2
        obtain ⟨ep, hep, hc, rfl⟩ := logsStep_some_inv h
        exact ⟨.logs, ep, hep, hc, rfl⟩

theorem fileStep_snd_none {j : Bool} {f : Option String} {w : World} {a : Acc}
    (h : ∀ p, f = some p → w.file_create_ok p = true) :
    (fileStep j f w a).2 = none := by
  cases f with
  | none => rfl
  | some p => simp [fileStep, h p rfl]

theorem tracesStep_snd_none {p : TracingOtelParams} {r : Resource} {w : World} {a : Acc}
    (h : ∀ e, p.endpoint_traces = some e → w.span_exporter_ok e = true) :
    (tracesStep p r w a).2 = none := by
  cases het : p.endpoint_traces with
  | none => simp [tracesStep, het]
  | some ep => simp [tracesStep, het, h ep het]

theorem metricsStep_snd_none {p : TracingOtelParams} {r : Resource} {w : World} {a : Acc}
    (h : ∀ e, p.endpoint_metrics = some e → w.metric_exporter_ok e = true) :
    (metricsStep p r w a).2 = none := by
  cases het : p.endpoint_metrics with
  | none => simp [metricsStep, het]
  | some ep => simp [metricsStep, het, h ep het]

theorem logsStep_snd_none {p : TracingOtelParams} {r : Resource} {w : World} {a : Acc}
    (h : ∀ e, p.endpoint_logs = some e → w.log_exporter_ok e = true) :
    (logsStep p r w a).2 = none := by
  cases het : p.endpoint_logs with
  | none => simp [logsStep, het]
  | some ep => simp [logsStep, het, h ep het]

theorem otelStep_snd_none {o : Option TracingOtelParams} {w : World} {a : Acc}
    (h : ∀ p, o = some p → ∀ k e, p.endpointOf k = some e → w.exporterOracle k e = true) :
    (otelStep o w a).2 = none := by
  cases o with
  | none => rfl
  | some p =>
    simp only [otelStep]
    split
    · rename_i a1 e1 heq1
      obtain ⟨ep, hep, hc, -⟩ := tracesStep_some_inv heq1
      have ht := h p rfl ExporterKind.traces ep hep
      simp only [World.exporterOracle] at ht
      rw [ht] at hc
      cases hc
    · rename_i a1 heq1
      split
      · rename_i a2 e2 heq2
        obtain ⟨ep, hep, hc, -⟩ := metricsStep_some_inv heq2
        have ht := h p rfl ExporterKind.metrics ep hep
        simp only [World.exporterOracle] at ht
        rw [ht] at hc
        cases hc
      · rename_i a2 heq2
        exact logsStep_snd_none (fun e he => h p rfl ExporterKind.logs e he)

/-- Successful `try_init` under sufficient external conditions: the file
can be created, every requested exporter builds, and no subscriber is
installed yet. -/
theorem try_init_ok_of {b : TracingBuilder} {w : World}
    (h : ∀ p, b.file = some p → w.file_create_ok p = true)
    (g : ∀ k e, b.exporterRequested k e → w.exporterOracle k e = true)
    (s : w.subscriber_installed = false) :
    (b.try_init w).result = Except.ok (finalGuard b.otel) := by
  rcases hf : fileStep (b.json.getD true) b.file w Acc.start with ⟨a1, oe1⟩
  have hoe1 : oe1 = none := by
    have hx := fileStep_snd_none (j := b.json.getD true) (a := Acc.start) h
    rw [hf] at hx
    exact hx
  subst hoe1
  rcases ho : otelStep b.otel w (stdoutStep (b.json.getD true) (b.stdout.getD true) a1)
    with ⟨a2, oe2⟩
  have hoe2 : oe2 = none := by
    have hx := otelStep_snd_none
      (a := stdoutStep (b.json.getD true) (b.stdout.getD true) a1)
      (fun p hp k e he => g k e ⟨p, hp, he⟩)
    rw [ho] at hx
    exact hx
  subst hoe2
  have hres : (b.try_init w).result = Except.ok a2.guard := by
    simp [try_init, hf, ho, s]
  rw [hres]
  obtain ⟨-, -, -, hgd1⟩ := fileStep_none_inv hf
  have hbase : (stdoutStep (b.json.getD true) (b.stdout.getD true) a1).guard
      = TracingGuards.empty := by
    rw [stdoutStep_eq]
    exact hgd1
  rcases otelStep_none_inv ho with ⟨hno, rfl⟩ | ⟨p, hp, -, -, -, hgt, hgm, hgl⟩
  · rw [hno, hbase]
    rfl
  · have he : a2.guard = ⟨a2.guard.otel_tracer, a2.guard.otel_meter, a2.guard.otel_logger⟩ := rfl
    rw [hp, he, hgt, hgm, hgl]
    simp only [finalGuard, otelGuard, TracingGuards.empty]
    cases p.endpoint_traces <;> cases p.endpoint_metrics <;> cases p.endpoint_logs <;>
      simp [hbase, TracingGuards.empty]

/-- What a successful `try_init` implies: no subscriber was installed
before, the returned guard is determined by the OTel params, the world
now has the subscriber installed, and the layers and effects are exactly
the assembled ones. -/
theorem try_init_ok_inv {b : TracingBuilder} {w : World} {g : TracingGuards}
    (h : (b.try_init w).result = Except.ok g) :
    w.subscriber_installed = false ∧
    g = finalGuard b.otel ∧
    (b.try_init w).world = { w with subscriber_installed := true } ∧
    (b.try_init w).layers =
      fileLy (b.json.getD true) b.file
        ++ stdoutLy (b.json.getD true) (b.stdout.getD true)
        ++ (match b.otel with | some p => otelLy p | none => []) ∧
    (b.try_init w).effects =
      fileFx b.file ++ (match b.otel with | some p => otelFx p | none => [])
        ++ [Effect.installSubscriber (b.env_filter.getD w.rust_log) ((b.try_init w).layers)] := by
  rcases h1 : fileStep (b.json.getD true) b.file w Acc.start with ⟨a1, oe1⟩
  cases oe1 with
  | some e1 => simp [try_init, h1] at h
  | none =>
    rcases h2 : otelStep b.otel w (stdoutStep (b.json.getD true) (b.stdout.getD true) a1)
      with ⟨a2, oe2⟩
    cases oe2 with
    | some e2 => simp [try_init, h1, h2] at h
    | none =>
      cases hs : w.subscriber_installed with
      | true => simp [try_init, h1, h2, hs] at h
      | false =>
        have hg : a2.guard = g := by simpa [try_init, h1, h2, hs] using h
        obtain ⟨-, hfx1, hly1, hgd1⟩ := fileStep_none_inv h1
        have hsd := stdoutStep_eq (b.json.getD true) (b.stdout.getD true) a1
        have hbase : (stdoutStep (b.json.getD true) (b.stdout.getD true) a1).guard
            = TracingGuards.empty := by
          rw [hsd]
          exact hgd1
        have hly0 : (stdoutStep (b.json.getD true) (b.stdout.getD true) a1).layers
            = fileLy (b.json.getD true) b.file
              ++ stdoutLy (b.json.getD true) (b.stdout.getD true) := by
          rw [hsd]
          simp [hly1, Acc.start]
        have hfx0 : (stdoutStep (b.json.getD true) (b.stdout.getD true) a1).effects
            = fileFx b.file := by
          rw [hsd]
          simp [hfx1, Acc.start]
        refine ⟨rfl, ?_, ?_, ?_, ?_⟩
        · rw [← hg]
          rcases otelStep_none_inv h2 with ⟨hno, rfl⟩ | ⟨p, hp, -, -, -, hgt, hgm, hgl⟩
          · rw [hno, hbase]
            rfl
          · have he : a2.guard
                = ⟨a2.guard.otel_tracer, a2.guard.otel_meter, a2.guard.otel_logger⟩ := rfl
            rw [hp, he, hgt, hgm, hgl]
            simp only [finalGuard, otelGuard, TracingGuards.empty]
            cases p.endpoint_traces <;> cases p.endpoint_metrics <;> cases p.endpoint_logs <;>
              simp [hbase, TracingGuards.empty]
        · simp [try_init, h1, h2, hs]
        · have hglayers : (b.try_init w).layers = a2.layers := by
            simp [try_init, h1, h2, hs]
          rw [hglayers]
          rcases otelStep_none_inv h2 with ⟨hno, rfl⟩ | ⟨p, hp, -, -, hly2, -, -, -⟩
          · rw [hno, hly0]
            simp
          · rw [hp, hly2, hly0]
        · have hglayers : (b.try_init w).layers = a2.layers := by
            simp [try_init, h1, h2, hs]
          have hgfx : (b.try_init w).effects
              = a2.effects ++ [Effect.installSubscriber (b.env_filter.getD w.rust_log) a2.layers] := by
            simp [try_init, h1, h2, hs]
          rw [hgfx, hglayers]
          rcases otelStep_none_inv h2 with ⟨hno, rfl⟩ | ⟨p, hp, -, hfx2, -, -, -, -⟩
          · rw [hno, hfx0]
            simp
          · rw [hp, hfx2, hfx0]

/-- Every run of `try_init` either returns a guard or fails for one of
the three identified causes, each tied to its trigger. -/
theorem try_init_result_cases (b : TracingBuilder) (w : World) :
    (∃ g, (b.try_init w).result = Except.ok g) ∨
    (∃ p, b.file = some p ∧ w.file_create_ok p = false ∧
      (b.try_init w).result = Except.error (InitError.FileSink p)) ∨
    (∃ k e, b.exporterRequested k e ∧ w.exporterOracle k e = false ∧
      (b.try_init w).result = Except.error (InitError.ExporterBuild k e)) ∨
    (w.subscriber_installed = true ∧
      (b.try_init w).result = Except.error InitError.AlreadyInstalled) := by
  rcases h1 : fileStep (b.json.getD true) b.file w Acc.start with ⟨a1, oe1⟩
  cases oe1 with
  | some e1 =>
    obtain ⟨p, hp, hc, he, -⟩ := fileStep_some_inv h1
    subst he
    right; left
    exact ⟨p, hp, hc, by simp [try_init, h1]⟩
  | none =>
    rcases h2 : otelStep b.otel w (stdoutStep (b.json.getD true) (b.stdout.getD true) a1)
      with ⟨a2, oe2⟩
    cases oe2 with
    | some e2 =>
      obtain ⟨p, hp, k, ep, hep, hc, he⟩ := otelStep_some_inv h2
      subst he
      right; right; left
      exact ⟨k, ep, ⟨p, hp, hep⟩, hc, by simp [try_init, h1, h2]⟩
    | none =>
      cases hs : w.subscriber_installed with
      | true =>
        right; right; right
        exact ⟨rfl, by simp [try_init, h1, h2, hs]⟩
      | false =>
        left
        exact ⟨a2.guard, by simp [try_init, h1, h2, hs]⟩

theorem countP_stdoutLy_otelBridge (j s : Bool) :
    (stdoutLy j s).countP LayerDesc.isOtelBridge = 0 := by
  cases s <;> simp [stdoutLy, LayerDesc.isOtelBridge]

theorem countP_stdoutLy_logBridge (j s : Bool) :
    (stdoutLy j s).countP LayerDesc.isLogBridge = 0 := by
  cases s <;> simp [stdoutLy, LayerDesc.isLogBridge]

end TracingBuilder

end InternalUtils

/-! # The claims -/

namespace InternalUtils

/-- C2: for every configuration and world, `try_init` returns either a
lifecycle guard on success or an error identifying which of the three
causes failed initialization: the configured log file could not be
created (`FileSink`, tied to the failing path), an OTLP exporter could
not be constructed (`ExporterBuild`, tied to the failing kind and
endpoint), or a process-wide subscriber is already installed
(`AlreadyInstalled`). -/
theorem try_init_error_classification (b : TracingBuilder) (w : World) :
    (∃ g, (b.try_init w).result = Except.ok g) ∨
    (∃ p, b.file = some p ∧ w.file_create_ok p = false ∧
      (b.try_init w).result = Except.error (InitError.FileSink p)) ∨
    (∃ k e, b.exporterRequested k e ∧ w.exporterOracle k e = false ∧
      (b.try_init w).result = Except.error (InitError.ExporterBuild k e)) ∨
    (w.subscriber_installed = true ∧
      (b.try_init w).result = Except.error InitError.AlreadyInstalled) :=
  TracingBuilder.try_init_result_cases b w

/-- C4: dropping a `TracingGuards` processes its providers in the order
tracer, then meter, then logger; each present provider contributes
exactly `force_flush` followed by `shutdown` with a 100 ms timeout, each
call's result is discarded, and the destructor is a total function of
the guard (it performs these calls and nothing else, never panicking). -/
theorem guard_drop_release_order (g : TracingGuards) :
    g.dropActions =
      releaseSeq ProviderKind.tracer g.otel_tracer
        ++ releaseSeq ProviderKind.meter g.otel_meter
        ++ releaseSeq ProviderKind.logger g.otel_logger := by
  cases g with
  | mk t m l => cases t <;> cases m <;> cases l <;> rfl

/-- C7: `into_attributes` produces exactly `http.request.method`,
`http.route`, `http.response.status_code` (as a signed 64-bit integer),
then `error.type` iff `error` is set, then every `extra` pair in
insertion order, and nothing else; `duration_ms` contributes no
attribute. -/
theorem into_attributes_exact_sequence (d : HttpRequestMetrics) :
    d.into_attributes =
      KeyValue.newStr "http.request.method" d.method ::
      KeyValue.newStr "http.route" d.route ::
      KeyValue.newI64 "http.response.status_code" (Int.ofNat d.status_code) ::
      ((d.error.map fun e => KeyValue.newStr "error.type" e).toList
        ++ d.extra.map fun q => KeyValue.newStr q.1 q.2) ∧
    (∀ v, (d.duration v).into_attributes = d.into_attributes) := by
  constructor
  · cases he : d.error <;> simp [HttpRequestMetrics.into_attributes, he]
  · intro v
    cases he : d.error <;>
      simp [HttpRequestMetrics.into_attributes, HttpRequestMetrics.duration, he]

/-- C8: both duration-histogram factories configure the boundaries
exactly `[5, 10, 25, 50, 100, 250, 500, 1000, 2500, 5000, 10000]` in
that order — strictly increasing, hence without duplicates or
out-of-order values — with unit `ms`. -/
theorem duration_histogram_buckets (m : Meter) :
    (MetricsHelper.http_request_duration m).boundaries
        = [5, 10, 25, 50, 100, 250, 500, 1000, 2500, 5000, 10000] ∧
    (MetricsHelper.db_operation_duration m).boundaries
        = [5, 10, 25, 50, 100, 250, 500, 1000, 2500, 5000, 10000] ∧
    (MetricsHelper.http_request_duration m).unit = "ms" ∧
    (MetricsHelper.db_operation_duration m).unit = "ms" ∧
    List.Chain' (· < ·) (MetricsHelper.http_request_duration m).boundaries ∧
    List.Chain' (· < ·) (MetricsHelper.db_operation_duration m).boundaries ∧
    (MetricsHelper.http_request_duration m).boundaries.Nodup ∧
    (MetricsHelper.db_operation_duration m).boundaries.Nodup := by
  refine ⟨rfl, rfl, rfl, rfl, ?_, ?_, ?_, ?_⟩ <;>
    simp only [MetricsHelper.http_request_duration, MetricsHelper.db_operation_duration] <;>
    norm_num [List.Chain', List.Nodup]

/-- C9: in the tools copy, `with_stdout` writes the `json` field and
leaves the `stdout` field unchanged, contradicting the claim that it
sets only its named `stdout` field; the primary copy behaves as
claimed.  The spec itself flags the tools-copy behaviour as a suspected
accidental bug. -/
theorem with_stdout_tools_divergence :
    (tools.TracingBuilder.new.with_stdout false).json = some false ∧
    (tools.TracingBuilder.new.with_stdout false).stdout = none ∧
    (TracingBuilder.new.with_stdout false).stdout = some false ∧
    (TracingBuilder.new.with_stdout false).json = TracingBuilder.new.json ∧
    (TracingBuilder.new.with_stdout false).file = TracingBuilder.new.file ∧
    (TracingBuilder.new.with_stdout false).env_filter = TracingBuilder.new.env_filter ∧
    (TracingBuilder.new.with_stdout false).otel = TracingBuilder.new.otel :=
  ⟨rfl, rfl, rfl, rfl, rfl, rfl, rfl⟩

/-- C10: each convenience setter of `HttpRequestMetrics` updates exactly
its named field — `get`/`post`/`put`/`delete`/`patch` set `method` to
the matching verb, `ok`/`bad_request`/`conflict`/`internal_server_error`
set `status_code` to 200/400/409/500 — leaving every other field
unchanged. -/
theorem http_request_metrics_setters_frame (d : HttpRequestMetrics) :
    d.get = { d with method := "GET" } ∧
    d.post = { d with method := "POST" } ∧
    d.put = { d with method := "PUT" } ∧
    d.delete = { d with method := "DELETE" } ∧
    d.patch = { d with method := "PATCH" } ∧
    d.ok = { d with status_code := 200 } ∧
    d.bad_request = { d with status_code := 400 } ∧
    d.conflict = { d with status_code := 409 } ∧
    d.internal_server_error = { d with status_code := 500 } :=
  ⟨rfl, rfl, rfl, rfl, rfl, rfl, rfl, rfl, rfl⟩

/-- C3: when the configured file path cannot be created, `try_init`
fails with `FileSink` for that path, the world is unchanged (in
particular no process-wide subscriber got installed), and a subsequent
build in the same process can still succeed. -/
theorem try_init_filesink_no_subscriber (b : TracingBuilder) (w : World) (q : String)
    (hf : b.file = some q) (hc : w.file_create_ok q = false) :
    (b.try_init w).result = Except.error (InitError.FileSink q) ∧
    (b.try_init w).world = w ∧
    (w.subscriber_installed = false →
      ∃ g, (TracingBuilder.new.try_init (b.try_init w).world).result = Except.ok g) := by
  have h1 : TracingBuilder.fileStep (b.json.getD true) b.file w TracingBuilder.Acc.start
      = (TracingBuilder.Acc.start, some (InitError.FileSink q)) := by
    simp [TracingBuilder.fileStep, hf, hc]
  have hw : (b.try_init w).world = w := by
    simp [TracingBuilder.try_init, h1]
  refine ⟨by simp [TracingBuilder.try_init, h1], hw, ?_⟩
  intro hs
  rw [hw]
  refine ⟨TracingBuilder.finalGuard TracingBuilder.new.otel, ?_⟩
  refine TracingBuilder.try_init_ok_of (fun s hs2 => ?_) (fun k e he => ?_) hs
  · exact absurd hs2 (by simp [TracingBuilder.new])
  · obtain ⟨p2, hp2, -⟩ := he
    exact absurd hp2 (by simp [TracingBuilder.new])

/-- C3 witness: the theorem applied to the concrete uncreatable path
`/nonexistent/dir/f.log`. -/
theorem try_init_filesink_no_subscriber_witness :
    badFileBuilder.file = some "/nonexistent/dir/f.log" ∧
    badFileWorld.file_create_ok "/nonexistent/dir/f.log" = false ∧
    ((badFileBuilder.try_init badFileWorld).result
        = Except.error (InitError.FileSink "/nonexistent/dir/f.log") ∧
      (badFileBuilder.try_init badFileWorld).world = badFileWorld ∧
      (badFileWorld.subscriber_installed = false →
        ∃ g, (TracingBuilder.new.try_init
          (badFileBuilder.try_init badFileWorld).world).result = Except.ok g)) :=
  ⟨rfl, rfl,
    try_init_filesink_no_subscriber badFileBuilder badFileWorld "/nonexistent/dir/f.log" rfl rfl⟩

/-- C5 amended: initialization succeeds at most once per process — if
the first of two successive `try_init` calls returns a guard, the second
returns no guard, and it fails with `AlreadyInstalled` unless it already
failed earlier with `FileSink` or `ExporterBuild`. -/
theorem try_init_single_install (a b : TracingBuilder) (w : World)
    (g : TracingGuards) (h : (a.try_init w).result = Except.ok g) :
    (∀ u, (b.try_init (a.try_init w).world).result ≠ Except.ok u) ∧
    ((b.try_init (a.try_init w).world).result = Except.error InitError.AlreadyInstalled ∨
      (∃ p, b.file = some p ∧
        (b.try_init (a.try_init w).world).result = Except.error (InitError.FileSink p)) ∨
      (∃ k e, b.exporterRequested k e ∧
        (b.try_init (a.try_init w).world).result
          = Except.error (InitError.ExporterBuild k e))) := by
  obtain ⟨-, -, hw, -, -⟩ := TracingBuilder.try_init_ok_inv h
  have hinst : ((a.try_init w).world).subscriber_installed = true := by
    rw [hw]
  have hnot : ∀ u, (b.try_init (a.try_init w).world).result ≠ Except.ok u := by
    intro u hu
    obtain ⟨hfalse, -⟩ := TracingBuilder.try_init_ok_inv hu
    rw [hinst] at hfalse
    cases hfalse
  refine ⟨hnot, ?_⟩
  rcases TracingBuilder.try_init_result_cases b ((a.try_init w).world) with
    ⟨u, hu⟩ | ⟨p, hp, -, h2⟩ | ⟨k, e, hr, -, h2⟩ | ⟨-, h2⟩
  · exact absurd hu (hnot u)
  · exact Or.inr (Or.inl ⟨p, hp, h2⟩)
  · exact Or.inr (Or.inr ⟨k, e, hr, h2⟩)
  · exact Or.inl h2

/-- C5 witness: a concrete first call that succeeds, and the amended
conclusion for a second call with the same configuration. -/
theorem try_init_single_install_witness :
    (TracingBuilder.new.try_init okWorld).result = Except.ok TracingGuards.empty ∧
    ((∀ u, (TracingBuilder.new.try_init
        (TracingBuilder.new.try_init okWorld).world).result ≠ Except.ok u) ∧
      ((TracingBuilder.new.try_init (TracingBuilder.new.try_init okWorld).world).result
          = Except.error InitError.AlreadyInstalled ∨
        (∃ p, TracingBuilder.new.file = some p ∧
          (TracingBuilder.new.try_init (TracingBuilder.new.try_init okWorld).world).result
            = Except.error (InitError.FileSink p)) ∨
        (∃ k e, TracingBuilder.new.exporterRequested k e ∧
          (TracingBuilder.new.try_init (TracingBuilder.new.try_init okWorld).world).result
            = Except.error (InitError.ExporterBuild k e)))) :=
  ⟨rfl, try_init_single_install TracingBuilder.new TracingBuilder.new okWorld
    TracingGuards.empty rfl⟩

/-- C5 counterexample: two successive calls can both fail — here both
fail with `FileSink` — so it is not the case that of two successive
calls exactly one returns a guard and the other fails with
`AlreadyInstalled`. -/
theorem try_init_single_install_cex :
    (badFileBuilder.try_init badFileWorld).result
        = Except.error (InitError.FileSink "/nonexistent/dir/f.log") ∧
    (badFileBuilder.try_init (badFileBuilder.try_init badFileWorld).world).result
        = Except.error (InitError.FileSink "/nonexistent/dir/f.log") ∧
    (∀ u, (badFileBuilder.try_init badFileWorld).result ≠ Except.ok u) ∧
    (∀ u, (badFileBuilder.try_init (badFileBuilder.try_init badFileWorld).world).result
        ≠ Except.ok u) ∧
    (badFileBuilder.try_init badFileWorld).result
        ≠ Except.error InitError.AlreadyInstalled ∧
    (badFileBuilder.try_init (badFileBuilder.try_init badFileWorld).world).result
        ≠ Except.error InitError.AlreadyInstalled := by
  have h1 : (badFileBuilder.try_init badFileWorld).result
      = Except.error (InitError.FileSink "/nonexistent/dir/f.log") := rfl
  have h2 : (badFileBuilder.try_init (badFileBuilder.try_init badFileWorld).world).result
      = Except.error (InitError.FileSink "/nonexistent/dir/f.log") := rfl
  refine ⟨h1, h2, ?_, ?_, ?_, ?_⟩
  · intro u hu
    rw [h1] at hu
    exact Except.noConfusion hu
  · intro u hu
    rw [h2] at hu
    exact Except.noConfusion hu
  · intro hu
    rw [h1] at hu
    simp at hu
  · intro hu
    rw [h2] at hu
    simp at hu

/-- C6 amended: with OTel parameters present but all three endpoints
null — provided the configured file (if any) can be created and no
subscriber is installed yet — `try_init` succeeds with a guard holding
no provider handles, installs the W3C trace-context propagator exactly
once, constructs no exporter, and appends no OTel bridge subscriber
layer. -/
theorem try_init_empty_endpoints (b : TracingBuilder) (w : World) (p : TracingOtelParams)
    (q : b.otel = some p) (t : p.endpoint_traces = none) (m : p.endpoint_metrics = none)
    (l : p.endpoint_logs = none)
    (f : ∀ s, b.file = some s → w.file_create_ok s = true)
    (i : w.subscriber_installed = false) :
    (b.try_init w).result = Except.ok TracingGuards.empty ∧
    (b.try_init w).effects.countP Effect.isBuild = 0 ∧
    (b.try_init w).effects.count Effect.setTextMapPropagatorW3C = 1 ∧
    (b.try_init w).layers.countP LayerDesc.isOtelBridge = 0 := by
  have hexp : ∀ k e, b.exporterRequested k e → w.exporterOracle k e = true := by
    rintro k e ⟨p2, hp2, hend⟩
    rw [q] at hp2
    injection hp2 with hp2
    subst hp2
    cases k <;> simp [TracingOtelParams.endpointOf, t, m, l] at hend
  have hok := TracingBuilder.try_init_ok_of f hexp i
  have hge : TracingBuilder.finalGuard b.otel = TracingGuards.empty := by
    simp [q, TracingBuilder.finalGuard, TracingBuilder.otelGuard, t, m, l, TracingGuards.empty]
  obtain ⟨-, -, -, hly, hfx⟩ := TracingBuilder.try_init_ok_inv hok
  rw [q] at hly hfx
  refine ⟨by rw [hok, hge], ?_, ?_, ?_⟩
  · rw [hfx]
    cases hf : b.file <;>
      simp [TracingBuilder.fileFx, TracingBuilder.otelFx, TracingBuilder.trFx,
        TracingBuilder.meFx, TracingBuilder.loFx, t, m, l, Effect.isBuild,
        List.countP_append, List.countP_cons]
  · rw [hfx]
    cases hf : b.file <;>
      simp [TracingBuilder.fileFx, TracingBuilder.otelFx, TracingBuilder.trFx,
        TracingBuilder.meFx, TracingBuilder.loFx, t, m, l, List.count_append,
        List.count_cons]
  · rw [hly]
    cases hf : b.file <;>
      simp [TracingBuilder.fileLy, TracingBuilder.otelLy, TracingBuilder.trLy,
        TracingBuilder.loLy, t, l, LayerDesc.isOtelBridge, List.countP_append,
        List.countP_cons, TracingBuilder.countP_stdoutLy_otelBridge]

/-- C6 witness: the amended theorem at the concrete empty-endpoints
configuration and the all-successful world. -/
theorem try_init_empty_endpoints_witness :
    noEndpointBuilder.otel = some noEndpointParams ∧
    noEndpointParams.endpoint_traces = none ∧
    noEndpointParams.endpoint_metrics = none ∧
    noEndpointParams.endpoint_logs = none ∧
    okWorld.subscriber_installed = false ∧
    ((noEndpointBuilder.try_init okWorld).result = Except.ok TracingGuards.empty ∧
      (noEndpointBuilder.try_init okWorld).effects.countP Effect.isBuild = 0 ∧
      (noEndpointBuilder.try_init okWorld).effects.count Effect.setTextMapPropagatorW3C = 1 ∧
      (noEndpointBuilder.try_init okWorld).layers.countP LayerDesc.isOtelBridge = 0) :=
  ⟨rfl, rfl, rfl, rfl, rfl,
    try_init_empty_endpoints noEndpointBuilder okWorld noEndpointParams rfl rfl rfl rfl
      (fun s hs => absurd hs (by simp [noEndpointBuilder, TracingBuilder.new])) rfl⟩

/-- C6 counterexample: a configuration with OTel present and all three
endpoints null on which `try_init` does not succeed (its file path
cannot be created), refuting the unconditional "try_init succeeds". -/
theorem try_init_empty_endpoints_cex :
    badFileNoEndpointBuilder.otel = some noEndpointParams ∧
    noEndpointParams.endpoint_traces = none ∧
    noEndpointParams.endpoint_metrics = none ∧
    noEndpointParams.endpoint_logs = none ∧
    (badFileNoEndpointBuilder.try_init badFileWorld).result
        = Except.error (InitError.FileSink "/nonexistent/dir/f.log") ∧
    (∀ u, (badFileNoEndpointBuilder.try_init badFileWorld).result ≠ Except.ok u) := by
  refine ⟨rfl, rfl, rfl, rfl, rfl, ?_⟩
  intro u hu
  rw [show (badFileNoEndpointBuilder.try_init badFileWorld).result
      = Except.error (InitError.FileSink "/nonexistent/dir/f.log") from rfl] at hu
  exact Except.noConfusion hu

/-- C1 amended: for every configuration containing OTel parameters, on a
successful `try_init` each present endpoint URL yields exactly one
constructed OTLP exporter of its kind; the tracer and meter providers
are each installed exactly once as process-wide globals; the logger
provider is never installed as a process-wide global — instead it is
captured in the guard and bridged by exactly one subscriber layer. -/
theorem try_init_otel_exporters_and_globals (b : TracingBuilder) (w : World)
    (p : TracingOtelParams) (q : b.otel = some p) (g : TracingGuards)
    (h : (b.try_init w).result = Except.ok g) :
    (b.try_init w).effects.countP (Effect.isBuildOf ExporterKind.traces)
        = (if p.endpoint_traces.isSome then 1 else 0) ∧
    (b.try_init w).effects.countP (Effect.isGlobalProviderInstallOf ProviderKind.tracer)
        = (if p.endpoint_traces.isSome then 1 else 0) ∧
    (b.try_init w).effects.countP (Effect.isBuildOf ExporterKind.metrics)
        = (if p.endpoint_metrics.isSome then 1 else 0) ∧
    (b.try_init w).effects.countP (Effect.isGlobalProviderInstallOf ProviderKind.meter)
        = (if p.endpoint_metrics.isSome then 1 else 0) ∧
    (b.try_init w).effects.countP (Effect.isBuildOf ExporterKind.logs)
        = (if p.endpoint_logs.isSome then 1 else 0) ∧
    (b.try_init w).effects.countP (Effect.isGlobalProviderInstallOf ProviderKind.logger) = 0 ∧
    g.otel_logger.isSome = p.endpoint_logs.isSome ∧
    (b.try_init w).layers.countP LayerDesc.isLogBridge
        = (if p.endpoint_logs.isSome then 1 else 0) := by
  obtain ⟨-, hguard, -, hly, hfx⟩ := TracingBuilder.try_init_ok_inv h
  rw [q] at hguard hly hfx
  refine ⟨?_, ?_, ?_, ?_, ?_, ?_, ?_, ?_⟩ <;>
    first
    | (rw [hfx]
       cases hf : b.file <;> cases het : p.endpoint_traces <;>
         cases hem : p.endpoint_metrics <;> cases hel : p.endpoint_logs <;>
         simp [TracingBuilder.fileFx, TracingBuilder.otelFx, TracingBuilder.trFx,
           TracingBuilder.meFx, TracingBuilder.loFx, het, hem, hel,
           Effect.isBuildOf, Effect.isGlobalProviderInstallOf,
           List.countP_append, List.countP_cons])
    | (rw [hguard]
       cases hel : p.endpoint_logs <;>
         simp [TracingBuilder.finalGuard, TracingBuilder.otelGuard, hel])
    | (rw [hly]
       cases hf : b.file <;> cases het : p.endpoint_traces <;> cases hel : p.endpoint_logs <;>
         simp [TracingBuilder.fileLy, TracingBuilder.otelLy, TracingBuilder.trLy,
           TracingBuilder.loLy, het, hel, LayerDesc.isLogBridge,
           List.countP_append, List.countP_cons, TracingBuilder.countP_stdoutLy_logBridge])

/-- C1 witness: the amended theorem at the concrete full-endpoints
configuration and the all-successful world. -/
theorem try_init_otel_exporters_and_globals_witness :
    fullOtelBuilder.otel = some fullParams ∧
    (fullOtelBuilder.try_init okWorld).result
        = Except.ok (TracingBuilder.otelGuard fullParams) ∧
    ((fullOtelBuilder.try_init okWorld).effects.countP
        (Effect.isBuildOf ExporterKind.traces)
        = (if fullParams.endpoint_traces.isSome then 1 else 0) ∧
      (fullOtelBuilder.try_init okWorld).effects.countP
        (Effect.isGlobalProviderInstallOf ProviderKind.tracer)
        = (if fullParams.endpoint_traces.isSome then 1 else 0) ∧
      (fullOtelBuilder.try_init okWorld).effects.countP
        (Effect.isBuildOf ExporterKind.metrics)
        = (if fullParams.endpoint_metrics.isSome then 1 else 0) ∧
      (fullOtelBuilder.try_init okWorld).effects.countP
        (Effect.isGlobalProviderInstallOf ProviderKind.meter)
        = (if fullParams.endpoint_metrics.isSome then 1 else 0) ∧
      (fullOtelBuilder.try_init okWorld).effects.countP
        (Effect.isBuildOf ExporterKind.logs)
        = (if fullParams.endpoint_logs.isSome then 1 else 0) ∧
      (fullOtelBuilder.try_init okWorld).effects.countP
        (Effect.isGlobalProviderInstallOf ProviderKind.logger) = 0 ∧
      (TracingBuilder.otelGuard fullParams).otel_logger.isSome
        = fullParams.endpoint_logs.isSome ∧
      (fullOtelBuilder.try_init okWorld).layers.countP LayerDesc.isLogBridge
        = (if fullParams.endpoint_logs.isSome then 1 else 0)) :=
  ⟨rfl, rfl,
    try_init_otel_exporters_and_globals fullOtelBuilder okWorld fullParams rfl
      (TracingBuilder.otelGuard fullParams) rfl⟩

/-- C1 counterexample: on a fully successful run with the logs endpoint
present, the effect trace contains no global logger-provider install at
all — not the "exactly one corresponding provider installed as a
process-wide global" the claim states for the logger. -/
theorem try_init_no_global_logger_install_cex :
    fullParams.endpoint_logs.isSome = true ∧
    (fullOtelBuilder.try_init okWorld).result
        = Except.ok (TracingBuilder.otelGuard fullParams) ∧
    (fullOtelBuilder.try_init okWorld).effects.countP
        (Effect.isGlobalProviderInstallOf ProviderKind.logger) = 0 ∧
    (fullOtelBuilder.try_init okWorld).effects.countP
        (Effect.isGlobalProviderInstallOf ProviderKind.logger) ≠ 1 := by
  refine ⟨rfl, rfl, rfl, ?_⟩
  intro hu
  rw [show (fullOtelBuilder.try_init okWorld).effects.countP
      (Effect.isGlobalProviderInstallOf ProviderKind.logger) = 0 from rfl] at hu
  exact Nat.noConfusion hu

end InternalUtils
